import Mathlib

/-!
Verification development for the System-Ya-Mbogi storage/security engine
(`src/utils/githubStorage.js` together with the email-form attachment
validation).  Each JavaScript function relevant to the checked properties is
shallowly embedded as an executable Lean definition.  Network I/O is modelled
by explicit state passing over a store of JSON documents; external
cryptographic library calls (`CryptoJS.SHA256`, `CryptoJS.PBKDF2`,
`CryptoJS.AES`, and the checksum function `generateChecksum`, which is
`SHA256` of the JSON serialization) are modelled as function parameters
constrained only by hypotheses stating their documented contracts; thrown JS
`Error` values become `Except` error values, one constructor per `throw`
site.  All state-changing operations return the (possibly unchanged) store
together with the `Except` result, since a JS exception leaves the remote
store in whatever state the already-issued writes produced.
-/

/-! ## Error taxonomy -/

/-- Errors thrown by the storage engine.  Each constructor corresponds to a
distinct throw site in `githubStorage.js`: `Email not found`,
`Folder not found`, `Data integrity check failed`, the
`Rate limit exceeded for ...` throws guarding the lifecycle operations, the
missing-input messages, `Invalid folder admin password`, the `TypeError`
raised inside `SecurityManager.checkRateLimit` when it calls the
nonexistent `this.flagSuspiciousIP` (that method is defined only on
`GitHubStorage`), a 409 conflict from a PUT, and any other failed request
(timeout, network error, other non-2xx responses including the upstream
API quota 403). -/
inductive StorageError where
  | emailNotFound
  | folderNotFound
  | integrityFailure
  | rateLimited
  | validationError
  | invalidAdminPassword
  | typeError
  | conflict
  | upstreamFailure
deriving DecidableEq, Repr

/-- The ways the PUT request inside `saveData` can fail, after its internal
retry loop: a 409 `Conflict` (never retried, surfaced at once) or any other
upstream failure (timeout, network, other API errors) that survived the
three attempts. -/
inductive PutError where
  | conflict
  | upstream
deriving DecidableEq, Repr

/-- How a failed PUT surfaces from `saveData` in the storage-error
taxonomy. -/
def putErrorToStorage : PutError → StorageError
  | .conflict => .conflict
  | .upstream => .upstreamFailure

/-- Errors thrown by the two attachment validators: the email-form messages
(`... exceeds 5MB size limit`, `File type ... is not supported`) and the
`ContentValidator` messages (`Attachment exceeds maximum size of 10MB`,
`Invalid attachment type`). -/
inductive ValidationError where
  | fileTooLarge
  | fileTypeNotSupported
  | attachmentTooLarge
  | invalidAttachmentType
deriving DecidableEq, Repr

/-! ## Attachment validation (form boundary and storage boundary) -/

/-- A file/attachment as seen by both validators: `name`, `type`, `size`. -/
structure FileInfo where
  name : String
  type : String
  size : Nat
deriving DecidableEq, Repr

/-- `MAX_FILE_SIZE = 5 * 1024 * 1024` from the email form. -/
def MAX_FILE_SIZE : Nat := 5 * 1024 * 1024

/-- `ALLOWED_FILE_TYPES` from the email form (the identical list appears
inside `ContentValidator.validateAttachment`). -/
def ALLOWED_FILE_TYPES : List String :=
  ["image/jpeg", "image/png", "application/pdf", "text/plain"]

/-- `EmailForm.validateFile` (form boundary): throws when
`file.size > MAX_FILE_SIZE` or when the type is not in the allow-list. -/
def validateFile (file : FileInfo) : Except ValidationError Unit :=
  if MAX_FILE_SIZE < file.size then .error .fileTooLarge
  else if file.type ∉ ALLOWED_FILE_TYPES then .error .fileTypeNotSupported
  else .ok ()

/-- `ContentValidator.validateAttachment` (storage boundary): its local
`maxSize` is `10 * 1024 * 1024`; throws when `attachment.size > maxSize` or
when the type is not in its allow-list. -/
def validateAttachment (attachment : FileInfo) : Except ValidationError Unit :=
  let maxSize : Nat := 10 * 1024 * 1024
  let allowedTypes : List String := ["image/jpeg", "image/png", "application/pdf", "text/plain"]
  if maxSize < attachment.size then .error .attachmentTooLarge
  else if attachment.type ∉ allowedTypes then .error .invalidAttachmentType
  else .ok ()

/-! ## SecurityManager: rate limiting -/

/-- One `(max, window)` rate-limit configuration. -/
structure RateLimit where
  max : Nat
  window : Nat
deriving DecidableEq, Repr

/-- The action kinds keying `RATE_LIMITS`. -/
inductive ActionKind where
  | CREATE_FOLDER | CREATE_EMAIL | CREATE_VERSION | LIKE_ACTION | DOWNLOAD_ATTACHMENT
deriving DecidableEq, Repr

/-- The string name of an action kind, used to build the cache key
`ip + ":" + action`. -/
def actionName : ActionKind → String
  | .CREATE_FOLDER => "CREATE_FOLDER"
  | .CREATE_EMAIL => "CREATE_EMAIL"
  | .CREATE_VERSION => "CREATE_VERSION"
  | .LIKE_ACTION => "LIKE_ACTION"
  | .DOWNLOAD_ATTACHMENT => "DOWNLOAD_ATTACHMENT"

/-- The `RATE_LIMITS` constant table. -/
def RATE_LIMITS : ActionKind → RateLimit
  | .CREATE_FOLDER => { max := 5, window := 3600000 }
  | .CREATE_EMAIL => { max := 20, window := 3600000 }
  | .CREATE_VERSION => { max := 10, window := 3600000 }
  | .LIKE_ACTION => { max := 50, window := 3600000 }
  | .DOWNLOAD_ATTACHMENT => { max := 100, window := 3600000 }

/-- Association-list lookup, modelling `Map.get` / JS object-key access. -/
def lookupA {α : Type} (l : List (String × α)) (k : String) : Option α :=
  (l.find? (fun p => p.fst == k)).map (fun p => p.snd)

/-- Association-list update, modelling `Map.set` / JS object-key assignment.
(The JS `Map` keeps insertion order; only lookups matter here, so removing
the old binding and appending the new one is observationally equivalent.) -/
def setA {α : Type} (l : List (String × α)) (k : String) (v : α) : List (String × α) :=
  l.filter (fun p => p.fst != k) ++ [(k, v)]

/-- Association-list removal, modelling `delete obj[key]`. -/
def removeA {α : Type} (l : List (String × α)) (k : String) : List (String × α) :=
  l.filter (fun p => p.fst != k)

/-- The in-memory state of `SecurityManager`: `this.blacklistedIPs` (a `Set`)
and `this.rateLimitCache` (a `Map` from `ip:action` keys to timestamp
lists). -/
structure SecState where
  blacklistedIPs : List String
  rateLimitCache : List (String × List Nat)
deriving DecidableEq, Repr

/-- `SecurityManager.checkRateLimit(ip, action)`.  Returns the allow/deny
decision and the updated in-memory state, or the error the call throws.
Blacklisted IPs are denied at once (`return false`, before any flag call).
Otherwise the recorded timestamps for the `ip:action` key that are still
inside the window are counted.  At `max` or more the source executes
`await this.flagSuspiciousIP(ip, action)` — but `SecurityManager` has no
such method (it is defined only on `GitHubStorage` and never patched onto
the security manager), so the call throws
`TypeError: this.flagSuspiciousIP is not a function` and the `return false`
after it is unreachable; the cache entry is left as it was.  Below `max`,
`now` is recorded and the call is allowed. -/
def checkRateLimit (s : SecState) (ip : String) (action : ActionKind) (now : Nat) :
    Except StorageError (Bool × SecState) :=
  if ip ∈ s.blacklistedIPs then .ok (false, s)
  else
    let key := ip ++ ":" ++ actionName action
    let limit := RATE_LIMITS action
    let requests := (lookupA s.rateLimitCache key).getD []
    let recentRequests := requests.filter (fun time => now - time < limit.window)
    if limit.max ≤ recentRequests.length then .error .typeError
    else
      .ok (true, { s with rateLimitCache := setA s.rateLimitCache key (recentRequests ++ [now]) })

/-- Run a sequence of `checkRateLimit` calls for one `(ip, action)` pair at
the given timestamps, collecting the outcomes (a thrown error leaves the
in-memory state as it was). -/
def runRateLimit (s : SecState) (ip : String) (action : ActionKind) :
    List Nat → List (Except StorageError Bool) × SecState
  | [] => ([], s)
  | t :: ts =>
    match checkRateLimit s ip action t with
    | .error e =>
      let rest := runRateLimit s ip action ts
      (.error e :: rest.1, rest.2)
    | .ok r =>
      let rest := runRateLimit r.2 ip action ts
      (.ok r.1 :: rest.1, rest.2)

/-- The empty `SecurityManager` state built by its constructor. -/
def secEmpty : SecState := { blacklistedIPs := [], rateLimitCache := [] }

/-! ## SecurityManager: password hashing and verification

`hashPassword` draws a random 128-bit salt and derives
`CryptoJS.PBKDF2(password, salt, keySize 512/32, iterations 10000, SHA512)`;
`verifyPassword` parses the stored salt, recomputes the same derivation and
compares the hex strings (returning `false` on any thrown error).  The
external PBKDF2 call is modelled as an explicit parameter
`kdf : String → String → String` (password, salt ↦ derived-key hex), and the
salt randomness is externalized as a parameter. -/

/-- `SecurityManager.hashPassword(password)`: returns the pair
`(hash, salt)` where `hash = PBKDF2(password, salt)` and `salt` is the
externally supplied fresh random salt in hex. -/
def hashPassword (kdf : String → String → String) (password salt : String) : String × String :=
  (kdf password salt, salt)

/-- `SecurityManager.verifyPassword(password, storedHash, storedSalt)`:
recomputes the derivation with the stored salt and identical parameters and
compares for string equality. -/
def verifyPassword (kdf : String → String → String)
    (password storedHash storedSalt : String) : Bool :=
  kdf password storedSalt == storedHash

/-! ## SecurityManager: content encryption

`encryptContent(content, password)` is
`AES.encrypt(JSON.stringify(content), password).toString()` and
`decryptContent(c, password)` is
`JSON.parse(AES.decrypt(c, password).toString(Utf8))`.  The external library
calls are parameters: `stringify`/`parse` form the JSON codec (`parse`
returns `none` exactly where `JSON.parse` or the UTF-8 decoding would
throw), and `aesEncrypt`/`aesDecrypt` form the cipher. -/

/-- `SecurityManager.encryptContent(content, password)`. -/
def encryptContent {α : Type} (stringify : α → String)
    (aesEncrypt : String → String → String) (content : α) (password : String) : String :=
  aesEncrypt (stringify content) password

/-- `SecurityManager.decryptContent(encryptedContent, password)`. -/
def decryptContent {α : Type} (parse : String → Option α)
    (aesDecrypt : String → String → String) (encryptedContent password : String) : Option α :=
  parse (aesDecrypt encryptedContent password)

/-! ## Generic documents and `GitHubStorage.loadData`

`loadData(path)` fetches and decodes a document (404 becomes `null`), then
checks `data.checksum && data.checksum !== generateChecksum` of the document
with its `checksum` field replaced by the empty string, and throws
`Data integrity check failed` on a mismatch.  A document is modelled as an
opaque payload plus the `checksum` field, which may be absent/null (`none`),
empty (`some ""`) or a digest string; the checksum function over the
serialized document is the parameter `gen`. -/

/-- A stored JSON document: every field other than `checksum`, opaque to the
integrity check, plus the `checksum` field (`none` models an absent or
`null` field). -/
structure JsonDoc where
  payload : String
  checksum : Option String
deriving DecidableEq, Repr

/-- JS truthiness of the possibly-missing string field `data.checksum`:
absent/null and the empty string are falsy. -/
def truthyOpt : Option String → Bool
  | none => false
  | some s => s != ""

/-- `GitHubStorage.loadData(path)` on the document stored at the path
(`none` = 404, returned to the caller as `null`). -/
def loadData (gen : JsonDoc → String) (stored : Option JsonDoc) :
    Except StorageError (Option JsonDoc) :=
  match stored with
  | none => .ok none
  | some d =>
    if truthyOpt d.checksum = true ∧ d.checksum ≠ some (gen { d with checksum := some "" }) then
      .error .integrityFailure
    else .ok (some d)

/-! ## Email documents, `saveData`, and `updateEmailLikes`

The email documents written by `saveEmail` carry the fields below; their
`checksum` field is a plain string, initialized to `""` and then overwritten
with `generateChecksum` of the document.  `loadEmailData`, `loadFolderData`
and friends are the monomorphic instances of `loadData`/`saveData` at each
document type (the JS functions are untyped; the logic is identical).

`saveData(path, data)` first peeks at the existing file to obtain its `sha`
and, when the file exists and has content, checks
`existingData.checksum && existingData.checksum !==
generateChecksum(existingData)` — note: unlike `loadData`, it does NOT clear
the `checksum` field before recomputing.  Then it PUTs the new content with
the fresh `sha`; the outcome of that request (including its internal retry
loop: transient failures retried up to three times, a 409 conflict
surfaced at once) is the explicit parameter `put`, so a failed storage
write — conflict or upstream failure — propagates to the caller.  On a put
error the model leaves the store unchanged (a timed-out PUT may in fact
have landed; that ambiguity does not affect the result classification
proved below). -/

/-- An email document as created by `GitHubStorage.saveEmail`. -/
structure EmailDoc where
  id : String
  folderId : String
  subject : String
  body : String
  likes : Nat
  createdAt : Nat
  updatedAt : Nat
  passwordHash : String
  passwordSalt : String
  checksum : String
deriving DecidableEq, Repr

/-- `GitHubStorage.loadData` at an email document (the `checksum` field of an
email is a plain string, so JS truthiness is just nonemptiness). -/
def loadEmailData (gen : EmailDoc → String) (stored : Option EmailDoc) :
    Except StorageError (Option EmailDoc) :=
  match stored with
  | none => .ok none
  | some d =>
    if d.checksum ≠ "" ∧ d.checksum ≠ gen { d with checksum := "" } then
      .error .integrityFailure
    else .ok (some d)

/-- `GitHubStorage.saveData` at an email path: peek the existing document,
run the save-time integrity check (which recomputes the checksum over the
document WITH its `checksum` field still set), then PUT the new document;
the PUT outcome is the parameter `put`. -/
def saveEmailData (gen : EmailDoc → String) (existing : Option EmailDoc)
    (put : Except PutError Unit) (data : EmailDoc) :
    Except StorageError (Option EmailDoc) :=
  match existing with
  | none =>
    match put with
    | .error pe => .error (putErrorToStorage pe)
    | .ok _ => .ok (some data)
  | some e =>
    if e.checksum ≠ "" ∧ e.checksum ≠ gen e then .error .integrityFailure
    else
      match put with
      | .error pe => .error (putErrorToStorage pe)
      | .ok _ => .ok (some data)

/-- `GitHubStorage.updateEmailLikes(folderId, emailId, action)`: load the
email (404 → `Email not found`), build the updated document (`likes + 1`
for `increment`, otherwise `max(0, likes - 1)`, which on `Nat` is truncated
subtraction), recompute its checksum over the document whose `checksum`
field still holds the OLD digest — exactly as the JS object spread does —
and save it back (the outcome of the PUT inside that save is the parameter
`put`).  The `SecurityManager` state is in scope (`this.security`) but the
method never consults the rate limiter, so it is passed through
untouched. -/
def updateEmailLikes (gen : EmailDoc → String) (sec : SecState) (stored : Option EmailDoc)
    (put : Except PutError Unit) (action : String) (now : Nat) :
    SecState × Option EmailDoc × Except StorageError EmailDoc :=
  match loadEmailData gen stored with
  | .error e => (sec, stored, .error e)
  | .ok none => (sec, stored, .error .emailNotFound)
  | .ok (some email) =>
    let updated0 : EmailDoc := { email with
      likes := if action = "increment" then email.likes + 1 else email.likes - 1,
      updatedAt := now }
    let updatedEmail : EmailDoc := { updated0 with checksum := gen updated0 }
    match saveEmailData gen stored put updatedEmail with
    | .error e => (sec, stored, .error e)
    | .ok st' => (sec, st', .ok updatedEmail)

/-! ## Folder documents, lifecycle, and deletion -/

/-- A share-link document under `data/metadata/links`. -/
structure LinkDoc where
  token : String
  folderId : String
  encryptedData : String
deriving DecidableEq, Repr

/-- An email-version document under `data/emails/folderId/versions`. -/
structure VersionDoc where
  id : String
  originalEmailId : String
  version : Nat
  likes : Nat
  checksum : String
deriving DecidableEq, Repr

/-- A folder document as created by `GitHubStorage.createFolder` (with the
`approvedAt` field that `checkFolderApproval` adds later; absent =
`none`). -/
structure FolderDoc where
  id : String
  name : String
  targetEmail : String
  createdAt : Nat
  updatedAt : Nat
  status : String
  creatorIP : String
  adminHash : String
  adminSalt : String
  emails : List String
  emailsLoaded : Bool
  approvedAt : Option Nat
  checksum : String
deriving DecidableEq, Repr

/-- `FOLDER_STATUS.FLAGGED`. -/
def FOLDER_STATUS_FLAGGED : String := "flagged"

/-- The store slice addressed by one folder id: the folder document at the
silent path `data/silent/folders/id.json` and at the active path
`data/folders/id.json`, the email documents under `data/emails/id/`, the
version documents under `data/emails/id/versions/`, the attachment
documents under `data/attachments/id/`, and the share-link documents under
`data/metadata/links/`. -/
structure FullStore where
  silentFolder : Option FolderDoc
  activeFolder : Option FolderDoc
  emails : List EmailDoc
  versions : List VersionDoc
  attachments : List String
  links : List LinkDoc
deriving DecidableEq, Repr

/-- `GitHubStorage.loadData` at a folder document. -/
def loadFolderData (gen : FolderDoc → String) (stored : Option FolderDoc) :
    Except StorageError (Option FolderDoc) :=
  match stored with
  | none => .ok none
  | some d =>
    if d.checksum ≠ "" ∧ d.checksum ≠ gen { d with checksum := "" } then
      .error .integrityFailure
    else .ok (some d)

/-- The folder-location step of `GitHubStorage.deleteFolder`: try the silent
path first, then the active path; the Bool records `isSilent`. -/
def locateFolder (gen : FolderDoc → String) (st : FullStore) :
    Except StorageError (Option (FolderDoc × Bool)) :=
  match loadFolderData gen st.silentFolder with
  | .error e => .error e
  | .ok (some f) => .ok (some (f, true))
  | .ok none =>
    match loadFolderData gen st.activeFolder with
    | .error e => .error e
    | .ok (some f) => .ok (some (f, false))
    | .ok none => .ok none

/-- `GitHubStorage.deleteFolder(folderId, adminPassword)`: validate the two
inputs, locate the folder (silent path first), verify the password against
the stored `adminHash`/`adminSalt` — throwing `Invalid folder admin
password` BEFORE any deletion — and only then delete the folder contents
(emails, attachments, version files), the folder document, and every share
link referencing this folder id. -/
def deleteFolder (kdf : String → String → String) (gen : FolderDoc → String)
    (st : FullStore) (folderId adminPassword : String) :
    FullStore × Except StorageError Bool :=
  if folderId = "" then (st, .error .validationError)
  else if adminPassword = "" then (st, .error .validationError)
  else
    match locateFolder gen st with
    | .error e => (st, .error e)
    | .ok none => (st, .error .folderNotFound)
    | .ok (some fp) =>
      if verifyPassword kdf adminPassword fp.1.adminHash fp.1.adminSalt = false then
        (st, .error .invalidAdminPassword)
      else
        ({ st with emails := [], attachments := [], versions := [],
                   silentFolder := if fp.2 then none else st.silentFolder,
                   activeFolder := if fp.2 then st.activeFolder else none,
                   links := st.links.filter (fun l => l.folderId != folderId) },
         .ok true)

/-! ## Blacklist promotion -/

/-- One entry of `blacklist.pendingReports`: the report list (timestamp and
evidence) and `firstReportedAt`. -/
structure PendingEntry where
  reports : List (Nat × String)
  firstReportedAt : Nat
deriving DecidableEq, Repr

/-- One entry of `blacklist.entries`, written on promotion. -/
structure BlEntry where
  timestamp : Nat
  reports : List (Nat × String)
deriving DecidableEq, Repr

/-- The persistent blacklist document `data/blacklist/ips.json` (it carries
no `checksum` field, so its loads and saves never hit the integrity
checks). -/
structure BlacklistDoc where
  ips : List String
  entries : List (String × BlEntry)
  pendingReports : List (String × PendingEntry)
deriving DecidableEq, Repr

/-- `REPORTS_THRESHOLD = 3`. -/
def REPORTS_THRESHOLD : Nat := 3

/-- `TIME_WINDOW = 7 * 24 * 60 * 60 * 1000` (7 days). -/
def TIME_WINDOW : Nat := 7 * 24 * 60 * 60 * 1000

/-- `GitHubStorage.addToBlacklist(ip, evidence)`: load the blacklist
document (defaulting to the empty one), append the new report to the
pending reports of the hashed IP, count the reports whose age is at most
`TIME_WINDOW`; when that count reaches `REPORTS_THRESHOLD` and the hash is
not yet listed, append the hash to `ips`, record the promotion entry, drop
the pending bucket, and add the RAW ip to the in-memory
`security.blacklistedIPs` set; finally save the document.  The SHA-256 of
the IP is the parameter `hashIP`. -/
def addToBlacklist (hashIP : String → String) (stored : Option BlacklistDoc)
    (sec : SecState) (ip evidence : String) (now : Nat) : BlacklistDoc × SecState :=
  let ipHash := hashIP ip
  let bl := stored.getD { ips := [], entries := [], pendingReports := [] }
  let pending0 := (lookupA bl.pendingReports ipHash).getD { reports := [], firstReportedAt := now }
  let pending : PendingEntry := { pending0 with reports := pending0.reports ++ [(now, evidence)] }
  let recentReports := pending.reports.filter (fun r => now - r.fst ≤ TIME_WINDOW)
  if REPORTS_THRESHOLD ≤ recentReports.length ∧ ipHash ∉ bl.ips then
    ({ ips := bl.ips ++ [ipHash],
       entries := setA bl.entries ipHash { timestamp := now, reports := recentReports },
       pendingReports := removeA bl.pendingReports ipHash },
     { sec with blacklistedIPs := sec.blacklistedIPs ++ [ip] })
  else
    ({ bl with pendingReports := setA bl.pendingReports ipHash pending }, sec)

/-! ## Concrete demo instances used by the witnesses -/

/-- A concrete stand-in for the external PBKDF2 derivation: injective in the
password for a fixed salt. -/
def kdfDemo : String → String → String := fun p s => p ++ "/" ++ s

/-- A concrete serializable value type for witnessing the encryption
round-trip: `Bool` with the canonical codec below. -/
def jsonStringifyDemo : Bool → String := fun b => cond b "T" "F"

/-- Canonical parser matching `jsonStringifyDemo`; returns `none` exactly
where `JSON.parse` would throw. -/
def jsonParseDemo : String → Option Bool := fun s =>
  if s = "T" then some true else if s = "F" then some false else none

/-- A concrete stand-in cipher: prepends the key. -/
def aesEncryptDemo : String → String → String := fun m k => String.mk (k.data ++ m.data)

/-- The matching decryption: drops a key-length prefix. -/
def aesDecryptDemo : String → String → String := fun c k => String.mk (c.data.drop k.data.length)

/-- A constant checksum function on generic documents (the falsy-checksum
theorem holds for EVERY checksum function; this one witnesses it). -/
def genConstDemo : JsonDoc → String := fun _ => "z"

/-- A concrete checksum function on email documents that depends on the
`likes` field and on the stored `checksum` field — as the real
`SHA256(JSON.stringify(data))` does, since the serialization includes the
`checksum` field. -/
def genDemo : EmailDoc → String := fun e => "sha:" ++ toString e.likes ++ ":" ++ e.checksum

/-- An email document before its checksum is filled in, exactly as
`saveEmail` builds it (`likes = 0`, `checksum = ""`). -/
def freshEmailBase : EmailDoc :=
  { id := "e1", folderId := "f1", subject := "s", body := "b", likes := 0,
    createdAt := 0, updatedAt := 0, passwordHash := "ph", passwordSalt := "ps", checksum := "" }

/-- The stored email exactly as `saveEmail` persists it: checksum generated
over the document with `checksum = ""`. -/
def freshEmail : EmailDoc := { freshEmailBase with checksum := genDemo freshEmailBase }

/-- A degenerate checksum function that returns the stored checksum field
itself — under it the save-time check always passes, isolating the
load-time check. -/
def genId : EmailDoc → String := fun e => e.checksum

/-- An email document whose stored checksum does not match the load-time
recomputation (under `genId` the cleared-checksum digest is `""`). -/
def corruptEmail : EmailDoc := { freshEmailBase with checksum := "deadbeef" }

/-- A constant checksum function on folder documents. -/
def genFConstDemo : FolderDoc → String := fun _ => "c"

/-- A concrete stand-in for `CryptoJS.SHA256` on IPs. -/
def hashIPDemo : String → String := fun s => "H" ++ s

/-- A concrete stored silent folder whose checksum is consistent with
`genFConstDemo`. -/
def folderDemo : FolderDoc :=
  { id := "fid", name := "Test", targetEmail := "a@b.com", createdAt := 0, updatedAt := 0,
    status := "silent", creatorIP := "iph", adminHash := "ah", adminSalt := "as",
    emails := [], emailsLoaded := true, approvedAt := none, checksum := "c" }

/-- Five stored emails with falsy checksums (so every load keeps them) and
zero likes: exactly five interactions. -/
def emailsDemo : List EmailDoc :=
  [{ freshEmailBase with id := "e1" }, { freshEmailBase with id := "e2" },
   { freshEmailBase with id := "e3" }, { freshEmailBase with id := "e4" },
   { freshEmailBase with id := "e5" }]

/-- A store holding `folderDemo` at the silent path, the five demo emails,
and nothing else. -/
def storeDemo : FullStore :=
  { silentFolder := some folderDemo, activeFolder := none, emails := emailsDemo,
    versions := [], attachments := [], links := [] }

/-- A blacklist document with two earlier pending reports for the hashed
demo IP. -/
def blacklistDemo : BlacklistDoc :=
  { ips := [], entries := [],
    pendingReports := [("H1.2.3.4", { reports := [(0, "spam"), (1, "abuse")],
                                      firstReportedAt := 0 })] }

/-! ## Theorems -/

/-- C1 (evidence for the code bug): on a freshly created stored email —
`likes = 0`, checksum generated, as `saveEmail` persists it, over the
document with `checksum` cleared to `""` — `updateEmailLikes` with
`increment` does NOT store `likes = 1`; it throws `Data integrity check
failed`, because the save-time check inside `saveData` recomputes the
checksum WITHOUT clearing the `checksum` field, which can only match the
stored digest at a fixed point of the hash.  The PUT itself is given as
succeeding (`put = .ok ()`), so the failure is solely the integrity check.
Consequently no increment ever succeeds on a checksummed email and the
two-increments-yield-2 scenario is unreachable. -/
theorem updateEmailLikes_increment_always_integrity_error :
    updateEmailLikes genDemo secEmpty (some freshEmail) (.ok ()) "increment" 99
      = (secEmpty, some freshEmail, .error .integrityFailure) := by
  rfl

/-- C2 (counterexample): the storage-layer attachment validation ACCEPTS an
attachment of size 6,000,000 of type `image/png` — its cap is
`10 * 1024 * 1024 = 10485760`, and `6000000 ≤ 10485760` — contradicting the
claim that it fails on this size. -/
theorem validateAttachment_accepts_6MB_png :
    validateAttachment { name := "big.png", type := "image/png", size := 6000000 } = .ok () := by
  rfl

/-- C2 (amended): for an attachment of size 6,000,000 and type `image/png`,
the form boundary rejects it with a validation error (its cap is
`5 * 1024 * 1024 = 5242880 < 6000000`), while the storage boundary
(`ContentValidator.validateAttachment`) accepts it, its 10MB cap being
`10485760 ≥ 6000000`; only the form boundary rejects this size. -/
theorem attachment_6MB_form_rejects_storage_accepts :
    validateFile { name := "big.png", type := "image/png", size := 6000000 }
      = .error .fileTooLarge
    ∧ validateAttachment { name := "big.png", type := "image/png", size := 6000000 } = .ok () :=
  ⟨rfl, rfl⟩

/-- C4 (evidence for the code bug): for `checkRateLimit` with limit
`max = 5`, `window = 3600000` (the `CREATE_FOLDER` configuration) and an IP
that is not blacklisted, five calls within one window (at times 0..4) all
return `true`; but the sixth call inside the window (at time 5) does NOT
return `false` — it throws the `TypeError` from the missing
`this.flagSuspiciousIP`, the `return false` after that call being
unreachable.  The crash leaves the recorded timestamps as they were, and a
later call made after every recorded timestamp has aged past the window
(time 3600005) returns `true` again. -/
theorem checkRateLimit_five_allowed_then_sixth_crashes (ip : String) :
    (runRateLimit secEmpty ip .CREATE_FOLDER [0, 1, 2, 3, 4, 5]).1
      = [.ok true, .ok true, .ok true, .ok true, .ok true, .error .typeError]
    ∧ checkRateLimit (runRateLimit secEmpty ip .CREATE_FOLDER [0, 1, 2, 3, 4, 5]).2
        ip .CREATE_FOLDER 3600005
      = .ok (true, ⟨[], [(ip ++ ":" ++ "CREATE_FOLDER", [3600005])]⟩) := by
  have loc : ∀ ts : List Nat,
      lookupA [(ip ++ ":" ++ "CREATE_FOLDER", ts)] (ip ++ ":" ++ "CREATE_FOLDER") = some ts := by
    intro ts
    simp [lookupA, List.find?]
  have hset : ∀ old new : List Nat,
      setA [(ip ++ ":" ++ "CREATE_FOLDER", old)] (ip ++ ":" ++ "CREATE_FOLDER") new
        = [(ip ++ ":" ++ "CREATE_FOLDER", new)] := by
    intro old new
    simp [setA, List.filter]
  have h1 : checkRateLimit secEmpty ip .CREATE_FOLDER 0
      = .ok (true, ⟨[], [(ip ++ ":" ++ "CREATE_FOLDER", [0])]⟩) := by
    simp [checkRateLimit, secEmpty, lookupA, setA, actionName, RATE_LIMITS, List.find?,
      List.filter]
  have h2 : checkRateLimit ⟨[], [(ip ++ ":" ++ "CREATE_FOLDER", [0])]⟩ ip .CREATE_FOLDER 1
      = .ok (true, ⟨[], [(ip ++ ":" ++ "CREATE_FOLDER", [0, 1])]⟩) := by
    simp [checkRateLimit, actionName, RATE_LIMITS, loc, hset, List.filter]
  have h3 : checkRateLimit ⟨[], [(ip ++ ":" ++ "CREATE_FOLDER", [0, 1])]⟩ ip .CREATE_FOLDER 2
      = .ok (true, ⟨[], [(ip ++ ":" ++ "CREATE_FOLDER", [0, 1, 2])]⟩) := by
    simp [checkRateLimit, actionName, RATE_LIMITS, loc, hset, List.filter]
  have h4 : checkRateLimit ⟨[], [(ip ++ ":" ++ "CREATE_FOLDER", [0, 1, 2])]⟩ ip .CREATE_FOLDER 3
      = .ok (true, ⟨[], [(ip ++ ":" ++ "CREATE_FOLDER", [0, 1, 2, 3])]⟩) := by
    simp [checkRateLimit, actionName, RATE_LIMITS, loc, hset, List.filter]
  have h5 : checkRateLimit ⟨[], [(ip ++ ":" ++ "CREATE_FOLDER", [0, 1, 2, 3])]⟩
      ip .CREATE_FOLDER 4
      = .ok (true, ⟨[], [(ip ++ ":" ++ "CREATE_FOLDER", [0, 1, 2, 3, 4])]⟩) := by
    simp [checkRateLimit, actionName, RATE_LIMITS, loc, hset, List.filter]
  have h6 : checkRateLimit ⟨[], [(ip ++ ":" ++ "CREATE_FOLDER", [0, 1, 2, 3, 4])]⟩
      ip .CREATE_FOLDER 5
      = .error .typeError := by
    simp [checkRateLimit, actionName, RATE_LIMITS, loc, hset, List.filter]
  have h7 : checkRateLimit ⟨[], [(ip ++ ":" ++ "CREATE_FOLDER", [0, 1, 2, 3, 4])]⟩
      ip .CREATE_FOLDER 3600005
      = .ok (true, ⟨[], [(ip ++ ":" ++ "CREATE_FOLDER", [3600005])]⟩) := by
    simp [checkRateLimit, actionName, RATE_LIMITS, loc, hset, List.filter]
  have hrun : runRateLimit secEmpty ip .CREATE_FOLDER [0, 1, 2, 3, 4, 5]
      = ([.ok true, .ok true, .ok true, .ok true, .ok true, .error .typeError],
         ⟨[], [(ip ++ ":" ++ "CREATE_FOLDER", [0, 1, 2, 3, 4])]⟩) := by
    simp only [runRateLimit, h1, h2, h3, h4, h5, h6]
  rw [hrun]
  exact ⟨rfl, h7⟩

/-- C5: Once an IP has accumulated `REPORTS_THRESHOLD = 3` abuse reports
whose timestamps lie within the 7-day rolling window (counting the report
just filed), and its hash is not yet listed, `addToBlacklist` appends the
hash of the IP to the persistent blacklist and adds the IP to the in-memory
blacklisted set, after which every `checkRateLimit` call for that IP, for
ANY action kind and any time, returns `false` with the state unchanged
(the blacklist short-circuit runs before the broken flag call, so no error
is thrown, and all later calls are denied the same way), regardless of
remaining per-action quota. -/
theorem addToBlacklist_promotes_and_denies
    (hashIP : String → String) (stored : Option BlacklistDoc) (sec : SecState)
    (ip evidence : String) (now : Nat) (action : ActionKind) (now2 : Nat)
    (hnew : hashIP ip ∉ (stored.getD { ips := [], entries := [], pendingReports := [] }).ips)
    (hcount : REPORTS_THRESHOLD ≤
      ((((lookupA (stored.getD { ips := [], entries := [], pendingReports := [] }).pendingReports
            (hashIP ip)).getD { reports := [], firstReportedAt := now }).reports
          ++ [(now, evidence)]).filter (fun r => now - r.fst ≤ TIME_WINDOW)).length) :
    (addToBlacklist hashIP stored sec ip evidence now).1.ips
      = (stored.getD { ips := [], entries := [], pendingReports := [] }).ips ++ [hashIP ip]
    ∧ checkRateLimit (addToBlacklist hashIP stored sec ip evidence now).2 ip action now2
        = .ok (false, (addToBlacklist hashIP stored sec ip evidence now).2) := by
  have hmem : ip ∈ sec.blacklistedIPs ++ [ip] := by
    simp
  refine ⟨?_, ?_⟩
  · simp only [addToBlacklist]
    rw [if_pos ⟨hcount, hnew⟩]
  · simp only [addToBlacklist]
    rw [if_pos ⟨hcount, hnew⟩]
    simp only [checkRateLimit]
    rw [if_pos hmem]

/-- Witness for C5 at concrete inputs: the demo blacklist document holds two
earlier reports (times 0 and 1) for the hashed demo IP; a third report at
time 2 promotes the hash and a later `LIKE_ACTION` quota check (untouched
quota) is denied with the state unchanged. -/
theorem addToBlacklist_promotes_and_denies_witness :
    hashIPDemo "1.2.3.4"
      ∉ ((some blacklistDemo).getD { ips := [], entries := [], pendingReports := [] }).ips
    ∧ REPORTS_THRESHOLD ≤
        ((((lookupA
              ((some blacklistDemo).getD
                { ips := [], entries := [], pendingReports := [] }).pendingReports
              (hashIPDemo "1.2.3.4")).getD { reports := [], firstReportedAt := 2 }).reports
            ++ [(2, "again")]).filter (fun r : Nat × String => 2 - r.fst ≤ TIME_WINDOW)).length
    ∧ (addToBlacklist hashIPDemo (some blacklistDemo) secEmpty "1.2.3.4" "again" 2).1.ips
        = ((some blacklistDemo).getD
            { ips := [], entries := [], pendingReports := [] }).ips
          ++ [hashIPDemo "1.2.3.4"]
    ∧ checkRateLimit (addToBlacklist hashIPDemo (some blacklistDemo) secEmpty
        "1.2.3.4" "again" 2).2 "1.2.3.4" .LIKE_ACTION 999
        = .ok (false,
            (addToBlacklist hashIPDemo (some blacklistDemo) secEmpty "1.2.3.4" "again" 2).2) :=
  ⟨by decide, by decide,
   (addToBlacklist_promotes_and_denies hashIPDemo (some blacklistDemo) secEmpty "1.2.3.4"
     "again" 2 .LIKE_ACTION 999 (by decide) (by decide)).1,
   (addToBlacklist_promotes_and_denies hashIPDemo (some blacklistDemo) secEmpty "1.2.3.4"
     "again" 2 .LIKE_ACTION 999 (by decide) (by decide)).2⟩

/-- C6: `deleteFolder(folderId, password)` with a password that does not
verify against the located folder`s stored admin hash and salt fails with
the invalid-password error and performs no deletion: the entire store — the
folder documents, the emails, the attachments, the versions and the share
links — is returned unchanged. -/
theorem deleteFolder_wrong_password_unchanged
    (kdf : String → String → String) (gen : FolderDoc → String) (st : FullStore)
    (folderId pw : String) (f : FolderDoc) (isSilent : Bool)
    (hid : ¬ folderId = "") (hpw : ¬ pw = "")
    (hloc : locateFolder gen st = .ok (some (f, isSilent)))
    (hbad : verifyPassword kdf pw f.adminHash f.adminSalt = false) :
    deleteFolder kdf gen st folderId pw = (st, .error .invalidAdminPassword) := by
  simp only [deleteFolder, hid, hpw, hloc]
  simp [hbad]

/-- Witness for C6 at concrete inputs: the demo store with the demo silent
folder; the password `wrong` fails verification under the demo derivation
and the store is returned unchanged with the invalid-password error. -/
theorem deleteFolder_wrong_password_unchanged_witness :
    locateFolder genFConstDemo storeDemo = .ok (some (folderDemo, true))
    ∧ verifyPassword kdfDemo "wrong" folderDemo.adminHash folderDemo.adminSalt = false
    ∧ deleteFolder kdfDemo genFConstDemo storeDemo "fid" "wrong"
        = (storeDemo, .error .invalidAdminPassword) :=
  ⟨rfl, by decide,
   deleteFolder_wrong_password_unchanged kdfDemo genFConstDemo storeDemo "fid" "wrong"
     folderDemo true (by decide) (by decide) rfl (by decide)⟩

/-- C7: For every password `p`, `verifyPassword p (hashPassword p)` is true;
and whenever `p2 ≠ p` and the derivation does not collide on the two
passwords at this salt (the claim hedges with `with overwhelming probability
over the hash function`; the no-collision assumption on the external PBKDF2
function makes that hedge an explicit hypothesis), `verifyPassword p2
(hashPassword p)` is false. -/
theorem verifyPassword_hashPassword (kdf : String → String → String) (p salt : String) :
    verifyPassword kdf p (hashPassword kdf p salt).1 (hashPassword kdf p salt).2 = true
    ∧ ∀ p2 : String, p2 ≠ p → kdf p2 salt ≠ kdf p salt →
        verifyPassword kdf p2 (hashPassword kdf p salt).1 (hashPassword kdf p salt).2
          = false := by
  constructor
  · simp [verifyPassword, hashPassword]
  · intro p2 _ hcoll
    simp [verifyPassword, hashPassword, hcoll]

/-- Witness for C7 at concrete inputs: the demo derivation, password `pw`,
salt `a1b2`, and the distinct password `pw2`. -/
theorem verifyPassword_hashPassword_witness :
    ("pw2" : String) ≠ "pw"
    ∧ kdfDemo "pw2" "a1b2" ≠ kdfDemo "pw" "a1b2"
    ∧ verifyPassword kdfDemo "pw" (hashPassword kdfDemo "pw" "a1b2").1
        (hashPassword kdfDemo "pw" "a1b2").2 = true
    ∧ verifyPassword kdfDemo "pw2" (hashPassword kdfDemo "pw" "a1b2").1
        (hashPassword kdfDemo "pw" "a1b2").2 = false :=
  ⟨by decide, by decide,
   (verifyPassword_hashPassword kdfDemo "pw" "a1b2").1,
   (verifyPassword_hashPassword kdfDemo "pw" "a1b2").2 "pw2" (by decide) (by decide)⟩

/-- C8: For every serializable value `d` and password `p`,
`decryptContent (encryptContent d p) p = d`, given the JSON codec
round-trip contract and the same-key round-trip contract of the cipher; and
for every password `p2` under which decryption does not reproduce the
serialized plaintext (the cryptographic wrong-key assumption, explicit as a
hypothesis), with a canonical codec, `decryptContent (encryptContent d p)
p2` never yields `d` — it fails to parse or yields something different. -/
theorem decryptContent_encryptContent (α : Type) (stringify : α → String)
    (parse : String → Option α) (aesEncrypt aesDecrypt : String → String → String)
    (d : α) (p : String)
    (hcodec : ∀ a : α, parse (stringify a) = some a)
    (haes : ∀ m k : String, aesDecrypt (aesEncrypt m k) k = m) :
    decryptContent parse aesDecrypt (encryptContent stringify aesEncrypt d p) p = some d
    ∧ ∀ p2 : String,
        (∀ (s : String) (a : α), parse s = some a → s = stringify a) →
        aesDecrypt (encryptContent stringify aesEncrypt d p) p2 ≠ stringify d →
        decryptContent parse aesDecrypt (encryptContent stringify aesEncrypt d p) p2
          ≠ some d := by
  constructor
  · simp [decryptContent, encryptContent, haes, hcodec]
  · intro p2 hcanon hne hcontra
    exact hne (hcanon _ d hcontra)

/-- Same-key round trip of the demo cipher. -/
theorem aesDemo_roundtrip : ∀ m k : String, aesDecryptDemo (aesEncryptDemo m k) k = m := by
  intro m k
  show String.mk ((k.data ++ m.data).drop k.data.length) = m
  rw [List.drop_left]

/-- The demo codec round-trips. -/
theorem jsonDemo_roundtrip : ∀ a : Bool, jsonParseDemo (jsonStringifyDemo a) = some a := by
  decide

/-- The demo codec is canonical: every string it accepts is the
serialization of the parsed value. -/
theorem jsonDemo_canonical :
    ∀ (s : String) (a : Bool), jsonParseDemo s = some a → s = jsonStringifyDemo a := by
  intro s a h
  unfold jsonParseDemo at h
  by_cases h1 : s = "T"
  · rw [if_pos h1] at h
    cases h
    exact h1
  · rw [if_neg h1] at h
    by_cases h2 : s = "F"
    · rw [if_pos h2] at h
      cases h
      exact h2
    · rw [if_neg h2] at h
      cases h

/-- Witness for C8: at the demo codec and cipher, `d = true`, `p = "kk"`,
`p2 = "x"`, decryption with the right password recovers `d` and decryption
with the wrong password does not yield `d`. -/
theorem decryptContent_encryptContent_witness :
    decryptContent jsonParseDemo aesDecryptDemo
      (encryptContent jsonStringifyDemo aesEncryptDemo true "kk") "kk" = some true
    ∧ decryptContent jsonParseDemo aesDecryptDemo
        (encryptContent jsonStringifyDemo aesEncryptDemo true "kk") "x" ≠ some true :=
  ⟨(decryptContent_encryptContent Bool jsonStringifyDemo jsonParseDemo aesEncryptDemo
      aesDecryptDemo true "kk" jsonDemo_roundtrip aesDemo_roundtrip).1,
   (decryptContent_encryptContent Bool jsonStringifyDemo jsonParseDemo aesEncryptDemo
      aesDecryptDemo true "kk" jsonDemo_roundtrip aesDemo_roundtrip).2 "x"
     jsonDemo_canonical (by decide)⟩

/-- C9: `loadData` performs its integrity verification only when the decoded
document has a truthy `checksum` field: every document whose checksum field
is absent/null or the empty string is returned to the caller as-is, with no
integrity check — the result does not depend on the checksum function at
all. -/
theorem loadData_accepts_unchecksummed (gen : JsonDoc → String) (d : JsonDoc)
    (h : truthyOpt d.checksum = false) :
    loadData gen (some d) = .ok (some d) := by
  simp [loadData, h]

/-- Witness for C9 at a concrete input: a document whose checksum field is
the empty string is returned as-is (under the constant demo checksum
function, which would reject it if the check ran). -/
theorem loadData_accepts_unchecksummed_witness :
    truthyOpt (JsonDoc.mk "body" (some "")).checksum = false
    ∧ loadData genConstDemo (some (JsonDoc.mk "body" (some "")))
        = .ok (some (JsonDoc.mk "body" (some ""))) :=
  ⟨by decide,
   loadData_accepts_unchecksummed genConstDemo (JsonDoc.mk "body" (some "")) (by decide)⟩

/-- C10 (counterexample): an email document whose stored checksum fails the
load-time recomputation makes `updateEmailLikes` fail with the integrity
error even though the email is present and the storage write would succeed
(the PUT outcome is given as `.ok ()`, and under `genId` the save-time
check passes on any document): the failure arises in `loadData`, before any
write is attempted, so it is neither a missing-email failure nor a
storage-write failure. -/
theorem updateEmailLikes_integrity_error_without_write :
    saveEmailData genId (some corruptEmail) (.ok ()) corruptEmail = .ok (some corruptEmail)
    ∧ (updateEmailLikes genId secEmpty (some corruptEmail) (.ok ()) "increment" 7).2.2
        = .error .integrityFailure
    ∧ (updateEmailLikes genId secEmpty (some corruptEmail) (.ok ()) "increment" 7).2.2
        ≠ .error .emailNotFound := by
  refine ⟨rfl, rfl, ?_⟩
  have hval : (updateEmailLikes genId secEmpty (some corruptEmail) (.ok ()) "increment" 7).2.2
      = Except.error StorageError.integrityFailure := rfl
  rw [hval]
  simp

/-- C10 (amended): `updateEmailLikes` consults no rate limiter and never
fails with the rate-limiter error: the `SecurityManager` state is returned
untouched (the `LIKE_ACTION` quota is neither consumed nor checked) and the
outcome is independent of that state; the operation either returns the
updated email, or fails because the email is missing, or fails with the
integrity error raised on load or by the pre-write check inside the save,
or fails because the storage write itself fails (a 409 conflict or an
upstream failure of the PUT, which propagates as that error). -/
theorem updateEmailLikes_no_rate_limiter (gen : EmailDoc → String) (sec sec2 : SecState)
    (stored : Option EmailDoc) (put : Except PutError Unit) (action : String) (now : Nat) :
    (updateEmailLikes gen sec stored put action now).1 = sec
    ∧ (updateEmailLikes gen sec stored put action now).2
        = (updateEmailLikes gen sec2 stored put action now).2
    ∧ ((∃ u, (updateEmailLikes gen sec stored put action now).2.2 = .ok u)
        ∨ (updateEmailLikes gen sec stored put action now).2.2 = .error .emailNotFound
        ∨ (updateEmailLikes gen sec stored put action now).2.2 = .error .integrityFailure
        ∨ (∃ pe : PutError, put = .error pe
            ∧ (updateEmailLikes gen sec stored put action now).2.2
                = .error (putErrorToStorage pe)))
    ∧ (updateEmailLikes gen sec stored put action now).2.2 ≠ .error .rateLimited := by
  cases stored with
  | none => simp [updateEmailLikes, loadEmailData]
  | some e =>
    by_cases hL : e.checksum ≠ "" ∧ e.checksum ≠ gen { e with checksum := "" }
    · have hload : loadEmailData gen (some e) = .error .integrityFailure := by
        simp only [loadEmailData]
        rw [if_pos hL]
      simp [updateEmailLikes, hload]
    · have hload : loadEmailData gen (some e) = .ok (some e) := by
        simp only [loadEmailData]
        rw [if_neg hL]
      by_cases hS : e.checksum ≠ "" ∧ e.checksum ≠ gen e
      · have hsave : ∀ d, saveEmailData gen (some e) put d = .error .integrityFailure := by
          intro d
          simp only [saveEmailData]
          rw [if_pos hS]
        simp [updateEmailLikes, hload, hsave]
      · cases put with
        | ok u =>
          have hsave : ∀ d, saveEmailData gen (some e) (.ok u) d = .ok (some d) := by
            intro d
            simp only [saveEmailData]
            rw [if_neg hS]
          simp [updateEmailLikes, hload, hsave]
        | error pe =>
          have hsave : ∀ d, saveEmailData gen (some e) (.error pe) d
              = .error (putErrorToStorage pe) := by
            intro d
            simp only [saveEmailData]
            rw [if_neg hS]
          have hres : ∀ s : SecState, updateEmailLikes gen s (some e) (.error pe) action now
              = (s, some e, .error (putErrorToStorage pe)) := by
            intro s
            simp [updateEmailLikes, hload, hsave]
          refine ⟨by rw [hres sec], by rw [hres sec, hres sec2],
            Or.inr (Or.inr (Or.inr ⟨pe, rfl, by rw [hres sec]⟩)), ?_⟩
          rw [hres sec]
          cases pe <;> simp [putErrorToStorage]
